import Mathlib

/-!
Shallow embedding of `virttest/libvirt_xml/network_xml.py` (avocado-vt):
the lifecycle facade of `NetworkXMLBase`/`NetworkXML` (the virtual
properties `defined`, `active`, `autostart`, `persistent`, the `sync` and
`orbital_nuclear_strike` methods, and the `define`/`undefine`/`create`/
`start` facade methods) together with the list-marshalling helpers
(`marshal_from_ips`, `marshal_from_hosts`,
`DNSXML.HostXML.marshal_from_hostname`) and the `__uncompareable__`
slot list used by structural equality.

The external management tool (virsh/libvirt) is an excluded collaborator:
it is modelled as a deterministic mapping from network names to their
reported flags, with the documented meaning of the define / undefine /
start / destroy / autostart subcommands, and command runners that return
a result record rather than raise.  Every exception raised by the module
itself is a `LibvirtXMLError`; operations additionally record the trace
of subcommands they issued, in order.
-/

/-- State of one network as reported by the external tool's listing
(`net_state_dict` reports `active`, `autostart` and `persistent`). -/
structure NetInfo where
  active : Bool
  autostart : Bool
  persistent : Bool
deriving DecidableEq, Repr

/-- The external tool's state: which names are known to its listing
(persistently defined or transient) and their flags; `none` means the
name is absent from the listing. -/
abbrev ToolState : Type := String → Option NetInfo

/-- Subcommands issued to the external tool;
`netAutostart name false` is the autostart-enable form and
`netAutostart name true` the `--disable` form. -/
inductive Cmd where
  | netDefine (name : String)
  | netUndefine (name : String)
  | netStart (name : String)
  | netDestroy (name : String)
  | netAutostart (name : String) (disable : Bool)
  | netCreate (name : String)
deriving DecidableEq, Repr

/-- `xcepts.LibvirtXMLError`: the single exception type the module raises
(the design's NotSet / TypeConflict / InvalidState / external-tool error
categories are all realized as this exception, carrying a message). -/
structure LibvirtXMLError where
  msg : String
deriving DecidableEq, Repr

/-- Result of an operation that may raise `LibvirtXMLError`. -/
abbrev Res (α : Type) : Type := Except LibvirtXMLError α

/-- Modelled from the spec: effect of the `net-define` subcommand of the
external tool (an excluded collaborator) — registers the name in the
persistent configuration store; a name not previously listed becomes
defined, inactive, with autostart disabled. -/
def virsh_net_define (s : ToolState) (name : String) : ToolState :=
  fun m =>
    if m = name then
      match s name with
      | none => some { active := false, autostart := false, persistent := true }
      | some i => some { i with persistent := true }
    else s m

/-- Modelled from the spec: effect of the `net-undefine` subcommand —
removes the name from the persistent store; an inactive network then
disappears from the listing, while an active one keeps running as a
transient (non-persistent) network. -/
def virsh_net_undefine (s : ToolState) (name : String) : ToolState :=
  fun m =>
    if m = name then
      match s name with
      | none => none
      | some i => if i.active then some { i with persistent := false } else none
    else s m

/-- Modelled from the spec: effect of the `net-start` subcommand —
activates a listed network. -/
def virsh_net_start (s : ToolState) (name : String) : ToolState :=
  fun m =>
    if m = name then (s name).map (fun i => { i with active := true })
    else s m

/-- Modelled from the spec: effect of the `net-destroy` (stop)
subcommand — deactivates the network; a transient network thereby
ceases to exist, a persistent one stays defined. -/
def virsh_net_destroy (s : ToolState) (name : String) : ToolState :=
  fun m =>
    if m = name then
      match s name with
      | none => none
      | some i => if i.persistent then some { i with active := false } else none
    else s m

/-- Modelled from the spec: effect of the `net-autostart` subcommand
(with or without `--disable`) — sets the autostart flag of a listed
network. -/
def virsh_net_autostart (s : ToolState) (name : String) (disable : Bool) : ToolState :=
  fun m =>
    if m = name then (s name).map (fun i => { i with autostart := !disable })
    else s m

/-- `NetworkXMLBase.get_defined`: the name is defined iff it occurs in
the tool's listing (`self.name in self.virsh.net_state_dict(...)`). -/
def get_defined (s : ToolState) (name : String) : Bool :=
  (s name).isSome

/-- `NetworkXMLBase.__check_undefined__`: raise `LibvirtXMLError errmsg`
when the name is not defined. -/
def check_undefined (s : ToolState) (name errmsg : String) : Res Unit :=
  if get_defined s name then .ok () else .error ⟨errmsg⟩

/-- `NetworkXMLBase.del_defined`: check the network is defined
(else raise), then issue `net-undefine`. -/
def del_defined (s : ToolState) (name : String) : Res (ToolState × List Cmd) :=
  match check_undefined s name "Cannot undefine non-existant network" with
  | .error e => .error e
  | .ok _ => .ok (virsh_net_undefine s name, [Cmd.netUndefine name])

/-- `NetworkXMLBase.set_defined`: `True` issues `net-define` with the
current document (the result of the subcommand is not inspected);
`False` performs `del self.defined`. -/
def set_defined (s : ToolState) (name : String) (value : Bool) : Res (ToolState × List Cmd) :=
  if value then .ok (virsh_net_define s name, [Cmd.netDefine name])
  else del_defined s name

/-- `NetworkXMLBase.get_active`: look the name up in `net_state_dict`;
a `KeyError` (name absent) is caught and yields `False`. -/
def get_active (s : ToolState) (name : String) : Bool :=
  match s name with
  | none => false
  | some i => i.active

/-- `NetworkXMLBase.del_active`: issue `net-destroy` if the network is
active, otherwise do nothing (no defined-ness check is performed). -/
def del_active (s : ToolState) (name : String) : Res (ToolState × List Cmd) :=
  if get_active s name then .ok (virsh_net_destroy s name, [Cmd.netDestroy name])
  else .ok (s, [])

/-- `NetworkXMLBase.set_active`: check the network is defined (else
raise); `True` issues `net-start` unless already active; `False`
performs `del self.active` if active, else does nothing. -/
def set_active (s : ToolState) (name : String) (value : Bool) : Res (ToolState × List Cmd) :=
  match check_undefined s name "Cannot activate undefined network" with
  | .error e => .error e
  | .ok _ =>
    if value then
      if !get_active s name then .ok (virsh_net_start s name, [Cmd.netStart name])
      else .ok (s, [])
    else
      if get_active s name then del_active s name
      else .ok (s, [])

/-- `NetworkXMLBase.get_autostart`: check the network is defined (else
raise), then report the tool's autostart flag. -/
def get_autostart (s : ToolState) (name : String) : Res Bool :=
  match check_undefined s name "Cannot determine autostart for undefined network" with
  | .error e => .error e
  | .ok _ => .ok (((s name).map (fun i => i.autostart)).getD false)

/-- `NetworkXMLBase.del_autostart`: raise if the network is not defined,
then issue `net-autostart --disable`. -/
def del_autostart (s : ToolState) (name : String) : Res (ToolState × List Cmd) :=
  if !get_defined s name then .error ⟨"Can't autostart nonexistant network"⟩
  else .ok (virsh_net_autostart s name true, [Cmd.netAutostart name true])

/-- `NetworkXMLBase.set_autostart`: check the network is defined (else
raise); `True` issues `net-autostart` unless the flag is already set;
`False` performs `del self.autostart` if the flag is set, else nothing. -/
def set_autostart (s : ToolState) (name : String) (value : Bool) : Res (ToolState × List Cmd) :=
  match check_undefined s name "Cannot set autostart for undefined network" with
  | .error e => .error e
  | .ok _ =>
    match get_autostart s name with
    | .error e => .error e
    | .ok au =>
      if value then
        if !au then .ok (virsh_net_autostart s name false, [Cmd.netAutostart name false])
        else .ok (s, [])
      else
        if au then del_autostart s name
        else .ok (s, [])

/-- `set_persistent = set_defined` (copied attribute in the source). -/
def set_persistent (s : ToolState) (name : String) (value : Bool) : Res (ToolState × List Cmd) :=
  set_defined s name value

/-- `del_persistent = del_defined` (copied attribute in the source). -/
def del_persistent (s : ToolState) (name : String) : Res (ToolState × List Cmd) :=
  del_defined s name

/-- `NetworkXMLBase.get_persistent`: report the tool's persistent flag
(a `KeyError` for an absent name is not caught here). -/
def get_persistent (s : ToolState) (name : String) : Res Bool :=
  match s name with
  | none => .error ⟨"KeyError"⟩
  | some i => .ok i.persistent

/-- Sequence two tool operations, propagating the first raised
`LibvirtXMLError` and concatenating the issued-subcommand traces. -/
def seqOp (x : Res (ToolState × List Cmd))
    (f : ToolState → Res (ToolState × List Cmd)) : Res (ToolState × List Cmd) :=
  match x with
  | .error e => .error e
  | .ok (s, t) =>
    match f s with
    | .error e => .error e
    | .ok (s', t') => .ok (s', t ++ t')

/-- The `state` argument of `NetworkXML.sync`: a boolean dict with keys
`active`, `persistent`, `autostart`. -/
structure SyncState where
  active : Bool
  persistent : Bool
  autostart : Bool
deriving DecidableEq, Repr

/-- `NetworkXML.sync(state=None)`: if currently defined, delete `active`
(when active) and then `defined` (when still defined); set `defined` to
`True`; then with a state dict, set `active` from it, delete
`persistent` when the dict's persistent flag is false, and set
`autostart` from the dict only if the network is still defined; with no
state dict, set `active` and `autostart` to `True`. -/
def sync (s0 : ToolState) (name : String) (st : Option SyncState) : Res (ToolState × List Cmd) :=
  seqOp
    (if get_defined s0 name then
      seqOp
        (if get_active s0 name then del_active s0 name else .ok (s0, []))
        (fun sa => if get_defined sa name then del_defined sa name else .ok (sa, []))
    else .ok (s0, []))
    (fun s1 =>
      seqOp (set_defined s1 name true)
        (fun s2 =>
          match st with
          | none =>
            seqOp (set_active s2 name true) (fun s3 => set_autostart s3 name true)
          | some st =>
            seqOp (set_active s2 name st.active)
              (fun s3 =>
                seqOp (if !st.persistent then del_persistent s3 name else .ok (s3, []))
                  (fun s4 =>
                    if get_defined s4 name then set_autostart s4 name st.autostart
                    else .ok (s4, [])))))

/-- The `try ... except LibvirtXMLError: LOG.warning(...)` pattern:
a raised `LibvirtXMLError` is swallowed, leaving the tool state
unchanged and no subcommand recorded for the failed step. -/
def ignoreLibvirtError (r : Res (ToolState × List Cmd)) (s : ToolState) : ToolState × List Cmd :=
  match r with
  | .ok x => x
  | .error _ => (s, [])

/-- `NetworkXML.orbital_nuclear_strike`: try `self["active"] = False`
swallowing `LibvirtXMLError`, then try `self["defined"] = False`
swallowing `LibvirtXMLError`. -/
def orbital_nuclear_strike (s0 : ToolState) (name : String) : Res (ToolState × List Cmd) :=
  let p1 := ignoreLibvirtError (set_active s0 name false) s0
  let p2 := ignoreLibvirtError (set_defined p1.1 name false) p1.1
  .ok (p2.1, p1.2 ++ p2.2)

/-- Result record of one external subcommand as returned by the
command-runner collaborator: exit status and captured stderr. -/
structure CmdResult where
  exit_status : Nat
  stderr : String
deriving DecidableEq, Repr

namespace NetworkXML

/-- `NetworkXML.define`: issue `net-define` and raise `LibvirtXMLError`
with the captured stderr when its exit status is non-zero. -/
def define (name : String) (res : CmdResult) : List Cmd × Res Unit :=
  ([Cmd.netDefine name],
   if res.exit_status = 0 then .ok ()
   else .error ⟨"Failed to define network " ++ name ++ ".\nDetail: " ++ res.stderr⟩)

/-- `NetworkXML.undefine`: issue `net-destroy` (its result is ignored),
then `net-undefine`, raising `LibvirtXMLError` with the captured stderr
when the undefine's exit status is non-zero. -/
def undefine (name : String) (destroyRes undefRes : CmdResult) : List Cmd × Res Unit :=
  ([Cmd.netDestroy name, Cmd.netUndefine name],
   if undefRes.exit_status = 0 then .ok ()
   else .error ⟨"Failed to undefine network " ++ name ++ ".\nDetail: " ++ undefRes.stderr⟩)

/-- `NetworkXML.create`: issue `net-create` and raise `LibvirtXMLError`
with the captured stderr when its exit status is non-zero. -/
def create (name : String) (res : CmdResult) : List Cmd × Res Unit :=
  ([Cmd.netCreate name],
   if res.exit_status = 0 then .ok ()
   else .error ⟨"Failed to create transient network " ++ name ++ ".\nDetail: " ++ res.stderr⟩)

/-- `NetworkXML.start`: issue `net-start` and raise `LibvirtXMLError`
with the captured stderr when its exit status is non-zero. -/
def start (name : String) (res : CmdResult) : List Cmd × Res Unit :=
  ([Cmd.netStart name],
   if res.exit_status = 0 then .ok ()
   else .error ⟨"Failed to start network " ++ name ++ ".\nDetail: " ++ res.stderr⟩)

end NetworkXML

/-- The `<ip>` element's attributes as serialized: `none` means the
attribute is absent from the output. -/
structure IPXML where
  address : Option String
  netmask : Option String
  family : Option String
deriving DecidableEq, Repr

/-- A dict supplied for one item of the `ips` list slot: `none` means
the key is absent from the dict. -/
structure IPDict where
  address : Option String
  netmask : Option String
  family : Option String
deriving DecidableEq, Repr

/-- `IPXML.__init__(address, netmask, ipv6)`: the seed document is
`<ip address=.../>` when `ipv6` is true and
`<ip address=... netmask=.../>` otherwise; no family attribute is set. -/
def IPXML_init (address netmask : String) (ipv6 : Bool) : IPXML :=
  if ipv6 then { address := some address, netmask := none, family := none }
  else { address := some address, netmask := some netmask, family := none }

/-- `setup_attrs(**item)` restricted to the `<ip>` attributes: each key
present in the dict overwrites the corresponding attribute. -/
def IPXML_setup_attrs (ip : IPXML) (d : IPDict) : IPXML :=
  { address := match d.address with | some v => some v | none => ip.address,
    netmask := match d.netmask with | some v => some v | none => ip.netmask,
    family := match d.family with | some v => some v | none => ip.family }

/-- `del ip.netmask`: remove the netmask attribute. -/
def del_netmask (ip : IPXML) : IPXML :=
  { ip with netmask := none }

/-- A value supplied as one item of the `ips` list slot: an `IPXML`
instance, a dict, or anything else (carrying its `str()` rendering). -/
inductive IpItem where
  | xmlObj (ip : IPXML)
  | dict (d : IPDict)
  | other (descr : String)

/-- `NetworkXMLBase.marshal_from_ips`: an `IPXML` instance passes
through; a dict builds `IPXML()` with the default address/netmask, then
applies the dict's keys, then deletes the netmask attribute when the
dict's family is exactly "ipv6"; anything else raises. -/
def marshal_from_ips : IpItem → Res (String × IPXML)
  | .xmlObj ip => .ok ("ip", ip)
  | .dict d =>
    let ip := IPXML_init "192.168.122.1" "255.255.255.0" false
    let ip := IPXML_setup_attrs ip d
    let ip := if d.family = some "ipv6" then del_netmask ip else ip
    .ok ("ip", ip)
  | .other descr => .error ⟨"Expected a list of IPXML instances, not a " ++ descr⟩

/-- `DNSXML.HostnameXML`: a `<hostname>` element whose text may be
unset. -/
structure HostnameXML where
  hostname : Option String
deriving DecidableEq, Repr

/-- A value supplied as one item of the `hostnames` list slot. -/
inductive HostnameItem where
  | xmlObj (h : HostnameXML)
  | dict (hostname : Option String)
  | str (s : String)
  | other (descr : String)

/-- `DNSXML.HostXML.marshal_from_hostname`: a `HostnameXML` instance
passes through; a dict builds `HostnameXML()` and applies its keys; a
plain string builds `HostnameXML()` and assigns the string as the
hostname text; anything else raises. -/
def marshal_from_hostname : HostnameItem → Res (String × HostnameXML)
  | .xmlObj h => .ok ("hostname", h)
  | .dict hn => .ok ("hostname", { hostname := hn })
  | .str s => .ok ("hostname", { hostname := some s })
  | .other descr => .error ⟨"Expected a list of HostnameXML instances, not a " ++ descr⟩

/-- `DhcpHostXML`: a `<host>` element of `ip/dhcp` with its attribute
map and lease attribute map. -/
structure DhcpHostXML where
  attrs : List (String × String)
  lease_attrs : List (String × String)
deriving DecidableEq, Repr

/-- A value supplied as one item of the `hosts` list slot. -/
inductive DhcpHostItem where
  | xmlObj (h : DhcpHostXML)
  | dict (attrs lease_attrs : List (String × String))
  | str (s : String)
  | other (descr : String)

/-- `IPXML.marshal_from_hosts`: a `DhcpHostXML` instance passes through;
a dict builds `DhcpHostXML()` and applies its keys; anything else
(a plain string included) raises. -/
def marshal_from_hosts : DhcpHostItem → Res (String × DhcpHostXML)
  | .xmlObj h => .ok ("host", h)
  | .dict a l => .ok ("host", { attrs := a, lease_attrs := l })
  | .str s => .error ⟨"Expected a list of ip dhcp host instances, not a " ++ s⟩
  | .other descr => .error ⟨"Expected a list of ip dhcp host instances, not a " ++ descr⟩

/-- An `<address>` device element (the class `librarian.get("address")`
returns), with its type and attribute map. -/
structure AddressXML where
  type_name : String
  attrs : List (String × String)
deriving DecidableEq, Repr

/-- A value supplied as one item of the `vf_list` list slot; `other`
covers any value that is neither the subclass nor a dict (carrying its
`str()` rendering), and a plain string is listed separately. -/
inductive AddressItem where
  | xmlObj (a : AddressXML)
  | dict (type_name : Option String) (attrs : List (String × String))
  | str (s : String)
  | other (descr : String)

/-- `NetworkXMLBase.marshal_from_address`: an address instance passes
through; a dict builds a pci-typed address after popping any
`type_name` key, then applies the remaining keys; anything else
(a plain string included) raises. -/
def marshal_from_address : AddressItem → Res (String × AddressXML)
  | .xmlObj a => .ok ("address", a)
  | .dict _ attrs => .ok ("address", { type_name := "pci", attrs := attrs })
  | .str s => .error ⟨"Expected a list of address instances, not a " ++ s⟩
  | .other descr => .error ⟨"Expected a list of address instances, not a " ++ descr⟩

/-- A `<portgroup>` element with the attributes its dict path sets. -/
structure PortgroupXML where
  name : Option String
  default : Option String
deriving DecidableEq, Repr

/-- A value supplied as one item of the `portgroups` list slot. -/
inductive PortgroupItem where
  | xmlObj (p : PortgroupXML)
  | dict (name default : Option String)
  | str (s : String)
  | other (descr : String)

/-- `NetworkXMLBase.marshal_from_portgroups`: a `PortgroupXML` instance
passes through; a dict builds `PortgroupXML()` and applies its keys;
anything else (a plain string included) raises. -/
def marshal_from_portgroups : PortgroupItem → Res (String × PortgroupXML)
  | .xmlObj p => .ok ("portgroup", p)
  | .dict n d => .ok ("portgroup", { name := n, default := d })
  | .str s => .error ⟨"Expected a list of PortgroupXML instances, not a " ++ s⟩
  | .other descr => .error ⟨"Expected a list of PortgroupXML instances, not a " ++ descr⟩

/-- A value supplied as one item of a dict-only list slot (`forwarders`,
`forward_interface`, `routes`): these lists declare no subclass, so an
item is either an attribute dict or rejected. -/
inductive DictItem where
  | dict (attrs : List (String × String))
  | str (s : String)
  | other (descr : String)

/-- `DNSXML.marshal_from_forwarder`: a dict is copied into a
`forwarder` tag + attributes pair; anything else raises. -/
def marshal_from_forwarder : DictItem → Res (String × List (String × String))
  | .dict attrs => .ok ("forwarder", attrs)
  | .str s => .error ⟨"Expected a dictionary of host attributes, not a " ++ s⟩
  | .other descr => .error ⟨"Expected a dictionary of host attributes, not a " ++ descr⟩

/-- `NetworkXMLBase.marshal_from_forward_iface`: a dict is copied into
an `interface` tag + attributes pair; anything else raises. -/
def marshal_from_forward_iface : DictItem → Res (String × List (String × String))
  | .dict attrs => .ok ("interface", attrs)
  | .str s => .error ⟨"Expected a dictionary of interface attributes, not a " ++ s⟩
  | .other descr => .error ⟨"Expected a dictionary of interface attributes, not a " ++ descr⟩

/-- `NetworkXMLBase.marshal_from_route`: a dict is copied into a
`route` tag + attributes pair; anything else raises (the source reuses
the interface-attributes message). -/
def marshal_from_route : DictItem → Res (String × List (String × String))
  | .dict attrs => .ok ("route", attrs)
  | .str s => .error ⟨"Expected a dictionary of interface attributes, not a " ++ s⟩
  | .other descr => .error ⟨"Expected a dictionary of interface attributes, not a " ++ descr⟩

/-- `NetworkXMLBase.__slots__`: every slot name declared on the network
type (document-content slots and the four lifecycle slots). -/
def networkSlots : List String :=
  ["name", "uuid", "bridge", "defined", "active", "autostart", "persistent",
   "forward", "mac", "ips", "bandwidth_inbound", "bandwidth_outbound",
   "portgroups", "dns", "domain", "domain_name", "nat_port",
   "forward_interface", "routes", "virtualport_type", "vf_list", "driver",
   "pf", "mtu", "connection", "port", "nat_attrs"]

/-- `NetworkXMLBase.__uncompareable__`: the slots excluded from
structural equality — the four lifecycle slots added on top of the base
class's list. -/
def networkUncompareable : List String :=
  ["defined", "active", "autostart", "persistent"]

/-- A network instance: the content-slot valuation of its in-memory
document, its name, and the external tool state its lifecycle slots are
read from. -/
structure NetworkInstance where
  doc : String → Option String
  name : String
  tool : ToolState

/-- Value of one slot of an instance: the four lifecycle slots are read
from the external tool, every other slot from the document. -/
def slotValue (inst : NetworkInstance) (slot : String) : Option String :=
  if slot = "defined" then some (toString (get_defined inst.tool inst.name))
  else if slot = "active" then some (toString (get_active inst.tool inst.name))
  else if slot = "autostart" then
    some (toString (((inst.tool inst.name).map (fun i => i.autostart)).getD false))
  else if slot = "persistent" then
    some (toString (((inst.tool inst.name).map (fun i => i.persistent)).getD false))
  else inst.doc slot

/-- Modelled from the spec: structural equality of `LibvirtXMLBase`
(defined in `base.py`, outside the embedded file) compares the
instances' slots while skipping every slot listed in
`__uncompareable__`. -/
def structEq (a b : NetworkInstance) : Bool :=
  networkSlots.all (fun sl => networkUncompareable.contains sl || slotValue a sl == slotValue b sl)

/-- A tool state with no network at all. -/
def emptyNet : ToolState := fun _ => none

/-- A tool state listing exactly one network, named "default". -/
def oneNet (i : NetInfo) : ToolState :=
  fun n => if n = "default" then some i else none

/-- The subcommand trace of `sync` on a defined network, written
following the amended description: deactivate if active, undefine if
still listed, define; then, from a state dict: start if its active flag
is set, undefine again if its persistent flag is unset, autostart-enable
if its autostart flag is set and the network is still listed (it is not
when the dict requested neither activity nor persistence); with no
state dict: start and autostart-enable. -/
def syncSpecTrace (name : String) (i : NetInfo) (st : Option SyncState) : List Cmd :=
  (if i.active then [Cmd.netDestroy name] else [])
    ++ (if i.active && !i.persistent then [] else [Cmd.netUndefine name])
    ++ [Cmd.netDefine name]
    ++ match st with
       | none => [Cmd.netStart name, Cmd.netAutostart name false]
       | some st =>
         (if st.active then [Cmd.netStart name] else [])
           ++ (if st.persistent then [] else [Cmd.netUndefine name])
           ++ (if (st.persistent || st.active) && st.autostart then
                [Cmd.netAutostart name false] else [])

/-- Claim C10: for every network instance whose name is absent from the
external tool's state listing, reading the `active` property returns
`false` rather than raising (the `KeyError` is caught), even when the
network was never defined. -/
theorem get_active_absent_false (s : ToolState) (n : String) (h : s n = none) :
    get_active s n = false := by
  simp [get_active, h]

/-- Witness for C10 at the empty tool state. -/
theorem get_active_absent_false_witness :
    emptyNet "default" = none ∧ get_active emptyNet "default" = false :=
  ⟨rfl, get_active_absent_false emptyNet "default" rfl⟩

/-- Claim C4: setting the `defined` property to false (or deleting it)
on a name that is not currently defined raises the invalid-state error
"Cannot undefine non-existant network" and issues no undefine
subcommand (the raise precedes any subcommand, so the trace is empty);
when the name is defined, it issues exactly the undefine subcommand. -/
theorem del_defined_requires_defined (s : ToolState) (n : String) :
    (get_defined s n = false →
      set_defined s n false = .error ⟨"Cannot undefine non-existant network"⟩ ∧
      del_defined s n = .error ⟨"Cannot undefine non-existant network"⟩) ∧
    (get_defined s n = true →
      (del_defined s n).map Prod.snd = .ok [Cmd.netUndefine n] ∧
      (set_defined s n false).map Prod.snd = .ok [Cmd.netUndefine n]) := by
  constructor <;> intro h <;>
    simp [set_defined, del_defined, check_undefined, h, Except.map]

/-- Witness for C4: undefined name raises, defined name undefines. -/
theorem del_defined_requires_defined_witness :
    set_defined emptyNet "default" false =
      .error ⟨"Cannot undefine non-existant network"⟩ ∧
    (del_defined (oneNet ⟨false, false, true⟩) "default").map Prod.snd =
      .ok [Cmd.netUndefine "default"] :=
  ⟨((del_defined_requires_defined emptyNet "default").1 rfl).1,
   ((del_defined_requires_defined (oneNet ⟨false, false, true⟩) "default").2 rfl).1⟩

/-- Claim C5 counterexample: deleting the `active` property of a network
that is not defined does NOT fail with an invalid-state error — it
returns successfully having issued no subcommand, because `del_active`
performs no defined-ness check. -/
theorem del_active_undefined_no_error :
    del_active emptyNet "default" = .ok (emptyNet, []) := rfl

/-- Claim C5 (amended): setting `active` (to true or false) fails with
"Cannot activate undefined network" when the network is not defined,
while deleting `active` performs no defined-ness check and is a silent
no-op on any inactive (in particular undefined) network; on a defined
network, setting true issues start (no-op if already active), and
setting false or deleting issues stop (no-op if already inactive). -/
theorem active_property_spec (s : ToolState) (n : String) (i : NetInfo) :
    (get_defined s n = false →
      set_active s n true = .error ⟨"Cannot activate undefined network"⟩ ∧
      set_active s n false = .error ⟨"Cannot activate undefined network"⟩ ∧
      (del_active s n).map Prod.snd = .ok []) ∧
    (s n = some i → i.active = false →
      (set_active s n true).map Prod.snd = .ok [Cmd.netStart n] ∧
      (set_active s n false).map Prod.snd = .ok [] ∧
      (del_active s n).map Prod.snd = .ok []) ∧
    (s n = some i → i.active = true →
      (set_active s n true).map Prod.snd = .ok [] ∧
      (set_active s n false).map Prod.snd = .ok [Cmd.netDestroy n] ∧
      (del_active s n).map Prod.snd = .ok [Cmd.netDestroy n]) := by
  refine ⟨fun h => ?_, fun h ha => ?_, fun h ha => ?_⟩
  · have hn : s n = none := by
      rcases hsn : s n with _ | j
      · rfl
      · rw [get_defined, hsn] at h; simp at h
    simp [set_active, del_active, check_undefined, get_defined, get_active, hn, Except.map]
  · simp [set_active, del_active, check_undefined, get_defined, get_active, h, ha, Except.map]
  · simp [set_active, del_active, check_undefined, get_defined, get_active, h, ha, Except.map]

/-- Witness for C5 (amended): an undefined network rejects activation,
and a defined inactive network is started. -/
theorem active_property_spec_witness :
    set_active emptyNet "default" true =
      .error ⟨"Cannot activate undefined network"⟩ ∧
    (set_active (oneNet ⟨false, false, true⟩) "default" true).map Prod.snd =
      .ok [Cmd.netStart "default"] :=
  ⟨((active_property_spec emptyNet "default" ⟨false, false, true⟩).1 rfl).1,
   ((active_property_spec (oneNet ⟨false, false, true⟩) "default"
      ⟨false, false, true⟩).2.1 rfl rfl).1⟩

/-- Claim C3: `orbital_nuclear_strike` never raises, for every prior
lifecycle state of the network: both the deactivate and the undefine
step catch `LibvirtXMLError`, so the result is always a success; on a
never-defined network both steps raise internally, are swallowed, and
no subcommand is issued. -/
theorem orbital_nuclear_strike_never_raises (s : ToolState) (n : String) :
    (∃ out, orbital_nuclear_strike s n = .ok out) ∧
    (s n = none → orbital_nuclear_strike s n = .ok (s, [])) := by
  refine ⟨⟨_, rfl⟩, fun h => ?_⟩
  simp [orbital_nuclear_strike, ignoreLibvirtError, set_active, set_defined, del_defined,
        check_undefined, get_defined, h]

/-- Witness for C3 on a never-defined network. -/
theorem orbital_nuclear_strike_never_raises_witness :
    orbital_nuclear_strike emptyNet "default" = .ok (emptyNet, []) :=
  (orbital_nuclear_strike_never_raises emptyNet "default").2 rfl

/-- Claim C9: each of the `define`, `undefine`, `create` and `start`
facade methods whose checked subcommand returns a non-zero exit status
raises an error carrying the captured stderr (the message ends with
it), after having issued its subcommand exactly once — no retry
(`undefine` additionally issues a stop first, whose result it ignores). -/
theorem facade_nonzero_exit_raises (n : String) (res dres : CmdResult)
    (h : res.exit_status ≠ 0) :
    NetworkXML.define n res = ([Cmd.netDefine n],
      .error ⟨"Failed to define network " ++ n ++ ".\nDetail: " ++ res.stderr⟩) ∧
    NetworkXML.undefine n dres res = ([Cmd.netDestroy n, Cmd.netUndefine n],
      .error ⟨"Failed to undefine network " ++ n ++ ".\nDetail: " ++ res.stderr⟩) ∧
    NetworkXML.create n res = ([Cmd.netCreate n],
      .error ⟨"Failed to create transient network " ++ n ++ ".\nDetail: " ++ res.stderr⟩) ∧
    NetworkXML.start n res = ([Cmd.netStart n],
      .error ⟨"Failed to start network " ++ n ++ ".\nDetail: " ++ res.stderr⟩) := by
  refine ⟨?_, ?_, ?_, ?_⟩ <;>
    simp [NetworkXML.define, NetworkXML.undefine, NetworkXML.create, NetworkXML.start, h]

/-- Witness for C9 at a failing result with stderr "boom". -/
theorem facade_nonzero_exit_raises_witness :
    NetworkXML.define "default" ⟨1, "boom"⟩ = ([Cmd.netDefine "default"],
      .error ⟨"Failed to define network " ++ "default" ++ ".\nDetail: " ++ "boom"⟩) ∧
    NetworkXML.start "default" ⟨1, "boom"⟩ = ([Cmd.netStart "default"],
      .error ⟨"Failed to start network " ++ "default" ++ ".\nDetail: " ++ "boom"⟩) :=
  ⟨(facade_nonzero_exit_raises "default" ⟨1, "boom"⟩ ⟨0, ""⟩ (by decide)).1,
   (facade_nonzero_exit_raises "default" ⟨1, "boom"⟩ ⟨0, ""⟩ (by decide)).2.2.2⟩

/-- Claim C2: for every dict marshalled into the `ips` list, family
"ipv6" never yields a netmask attribute in the serialized `<ip>`
element, while an absent family (or family "ipv4") always yields both
an address and a netmask attribute. -/
theorem marshal_from_ips_family_netmask (d : IPDict) :
    (d.family = some "ipv6" →
      (marshal_from_ips (.dict d)).map (fun p => p.2.netmask) = .ok none) ∧
    (d.family = none ∨ d.family = some "ipv4" →
      (marshal_from_ips (.dict d)).map
        (fun p => (p.2.address.isSome, p.2.netmask.isSome)) = .ok (true, true)) := by
  constructor
  · intro h
    simp [marshal_from_ips, h, del_netmask, IPXML_setup_attrs, IPXML_init, Except.map]
  · intro h
    rcases h with h | h <;>
      cases hd : d.address <;> cases hn : d.netmask <;>
        simp [marshal_from_ips, h, hd, hn, IPXML_setup_attrs, IPXML_init, Except.map]

/-- Witness for C2: an ipv6 dict yields no netmask; a family-less dict
yields both address and netmask. -/
theorem marshal_from_ips_family_netmask_witness :
    (marshal_from_ips (.dict ⟨none, none, some "ipv6"⟩)).map
      (fun p => p.2.netmask) = .ok none ∧
    (marshal_from_ips (.dict ⟨none, none, none⟩)).map
      (fun p => (p.2.address.isSome, p.2.netmask.isSome)) = .ok (true, true) :=
  ⟨(marshal_from_ips_family_netmask ⟨none, none, some "ipv6"⟩).1 rfl,
   (marshal_from_ips_family_netmask ⟨none, none, none⟩).2 (Or.inl rfl)⟩

/-- Claim C6 counterexample: a plain string — neither the declared dict
type nor the declared subclass — is ACCEPTED by
`DNSXML.HostXML.marshal_from_hostname` instead of being rejected. -/
theorem marshal_from_hostname_accepts_str :
    marshal_from_hostname (.str "example.com") =
      .ok ("hostname", { hostname := some "example.com" }) := rfl

/-- Claim C6 (amended), over every list-valued slot of the module —
`ips`, dhcp `hosts`, dns `hostnames`, `vf_list`, `portgroups`, and the
dict-only `forwarders` / `forward_interface` / `routes`: a value that
is neither the declared dict type nor the declared subclass type is
rejected with the type-conflict error, except that the dns host-name
list additionally accepts plain strings (turned into a hostname
element); every other list, the dict-only ones included, rejects
strings like any other non-dict, non-subclass value, and the declared
dict and subclass types are accepted everywhere. -/
theorem marshal_from_typeconflict (h : HostnameXML) (hn : Option String)
    (dh : DhcpHostXML) (ad : AddressXML) (pg : PortgroupXML) (ip : IPXML)
    (d : IPDict) (tn pn pd : Option String) (a l : List (String × String))
    (s descr : String) :
    marshal_from_ips (.other descr) =
      .error ⟨"Expected a list of IPXML instances, not a " ++ descr⟩ ∧
    marshal_from_hosts (.other descr) =
      .error ⟨"Expected a list of ip dhcp host instances, not a " ++ descr⟩ ∧
    marshal_from_hosts (.str s) =
      .error ⟨"Expected a list of ip dhcp host instances, not a " ++ s⟩ ∧
    marshal_from_hostname (.other descr) =
      .error ⟨"Expected a list of HostnameXML instances, not a " ++ descr⟩ ∧
    marshal_from_address (.other descr) =
      .error ⟨"Expected a list of address instances, not a " ++ descr⟩ ∧
    marshal_from_address (.str s) =
      .error ⟨"Expected a list of address instances, not a " ++ s⟩ ∧
    marshal_from_portgroups (.other descr) =
      .error ⟨"Expected a list of PortgroupXML instances, not a " ++ descr⟩ ∧
    marshal_from_portgroups (.str s) =
      .error ⟨"Expected a list of PortgroupXML instances, not a " ++ s⟩ ∧
    marshal_from_forwarder (.other descr) =
      .error ⟨"Expected a dictionary of host attributes, not a " ++ descr⟩ ∧
    marshal_from_forwarder (.str s) =
      .error ⟨"Expected a dictionary of host attributes, not a " ++ s⟩ ∧
    marshal_from_forward_iface (.other descr) =
      .error ⟨"Expected a dictionary of interface attributes, not a " ++ descr⟩ ∧
    marshal_from_forward_iface (.str s) =
      .error ⟨"Expected a dictionary of interface attributes, not a " ++ s⟩ ∧
    marshal_from_route (.other descr) =
      .error ⟨"Expected a dictionary of interface attributes, not a " ++ descr⟩ ∧
    marshal_from_route (.str s) =
      .error ⟨"Expected a dictionary of interface attributes, not a " ++ s⟩ ∧
    marshal_from_hostname (.str s) = .ok ("hostname", { hostname := some s }) ∧
    marshal_from_hostname (.dict hn) = .ok ("hostname", { hostname := hn }) ∧
    marshal_from_hostname (.xmlObj h) = .ok ("hostname", h) ∧
    marshal_from_hosts (.dict a l) = .ok ("host", { attrs := a, lease_attrs := l }) ∧
    marshal_from_hosts (.xmlObj dh) = .ok ("host", dh) ∧
    marshal_from_ips (.xmlObj ip) = .ok ("ip", ip) ∧
    (∃ ipOut, marshal_from_ips (.dict d) = .ok ("ip", ipOut)) ∧
    marshal_from_address (.xmlObj ad) = .ok ("address", ad) ∧
    marshal_from_address (.dict tn a) =
      .ok ("address", { type_name := "pci", attrs := a }) ∧
    marshal_from_portgroups (.xmlObj pg) = .ok ("portgroup", pg) ∧
    marshal_from_portgroups (.dict pn pd) =
      .ok ("portgroup", { name := pn, default := pd }) ∧
    marshal_from_forwarder (.dict a) = .ok ("forwarder", a) ∧
    marshal_from_forward_iface (.dict a) = .ok ("interface", a) ∧
    marshal_from_route (.dict a) = .ok ("route", a) :=
  ⟨rfl, rfl, rfl, rfl, rfl, rfl, rfl, rfl, rfl, rfl, rfl, rfl, rfl, rfl,
   rfl, rfl, rfl, rfl, rfl, rfl, ⟨_, rfl⟩, rfl, rfl, rfl, rfl, rfl, rfl, rfl⟩

/-- Claim C7: structural equality ignores the four lifecycle slots
(they are listed in `__uncompareable__`): two instances with identical
document content compare equal whatever the external tool states —
hence whatever their defined / active / autostart / persistent
status — are. -/
theorem structEq_ignores_lifecycle (doc : String → Option String) (n : String)
    (t1 t2 : ToolState) :
    structEq ⟨doc, n, t1⟩ ⟨doc, n, t2⟩ = true := by
  simp [structEq, networkSlots, networkUncompareable, slotValue]

/-- Claim C1: `sync()` with no state dict on a name not currently
defined in the external tool issues exactly one define, one start and
one autostart-enable subcommand, in that order, and no undefine or stop
subcommand. -/
theorem sync_undefined_default_trace (s : ToolState) (n : String) (h : s n = none) :
    (sync s n none).map Prod.snd =
      .ok [Cmd.netDefine n, Cmd.netStart n, Cmd.netAutostart n false] := by
  simp [sync, seqOp, set_defined, del_defined, set_active, del_active, set_autostart,
        get_autostart, del_autostart, check_undefined, get_defined, get_active,
        virsh_net_define, virsh_net_start, virsh_net_autostart, h, Except.map]

/-- Witness for C1 starting from the empty tool state. -/
theorem sync_undefined_default_trace_witness :
    (sync emptyNet "default" none).map Prod.snd =
      .ok [Cmd.netDefine "default", Cmd.netStart "default",
           Cmd.netAutostart "default" false] :=
  sync_undefined_default_trace emptyNet "default" rfl

/-- Claim C8 counterexample: with the state dict
`{active: False, persistent: False, autostart: True}` on a defined
inactive network, `sync` issues no autostart subcommand at all (the
network no longer exists after the second undefine, so the
`if self.defined` guard skips the autostart step); and on a transient
active network with no dict, `sync` issues no undefine subcommand
(deactivation already removed the network, so the inner
`if self["defined"]` guard skips the undefine). -/
theorem sync_state_counterexample :
    (sync (oneNet ⟨false, false, true⟩) "default"
        (some ⟨false, false, true⟩)).map Prod.snd =
      .ok [Cmd.netUndefine "default", Cmd.netDefine "default",
           Cmd.netUndefine "default"] ∧
    (sync (oneNet ⟨true, false, false⟩) "default" none).map Prod.snd =
      .ok [Cmd.netDestroy "default", Cmd.netDefine "default",
           Cmd.netStart "default", Cmd.netAutostart "default" false] :=
  ⟨rfl, rfl⟩

/-- Claim C8 (amended): for every `sync(state)` call on a currently
defined network, the subcommand trace is `syncSpecTrace`: deactivate if
active, undefine if still listed (a transient network vanishes on
deactivation and is not undefined), redefine from the current document;
then, with a state dict, start if its active flag is set, undefine
again if its persistent flag is unset, and autostart-enable per its
autostart flag only while the network is still defined; with no dict,
start and autostart-enable. -/
theorem sync_defined_trace (s : ToolState) (n : String) (i : NetInfo)
    (st : Option SyncState) (h : s n = some i) :
    (sync s n st).map Prod.snd = .ok (syncSpecTrace n i st) := by
  rcases i with ⟨ia, iau, ip⟩
  rcases st with _ | ⟨sa, sp, sau⟩
  · cases ia <;> cases ip <;>
      simp [sync, syncSpecTrace, seqOp, set_defined, del_defined, set_active,
            del_active, set_autostart, get_autostart, del_autostart, del_persistent,
            check_undefined, get_defined, get_active, virsh_net_define,
            virsh_net_undefine, virsh_net_start, virsh_net_destroy,
            virsh_net_autostart, h, Except.map]
  · cases ia <;> cases ip <;> cases sa <;> cases sp <;> cases sau <;>
      simp [sync, syncSpecTrace, seqOp, set_defined, del_defined, set_active,
            del_active, set_autostart, get_autostart, del_autostart, del_persistent,
            check_undefined, get_defined, get_active, virsh_net_define,
            virsh_net_undefine, virsh_net_start, virsh_net_destroy,
            virsh_net_autostart, h, Except.map]

/-- Witness for C8 (amended) on a defined, inactive, persistent network
with no state dict. -/
theorem sync_defined_trace_witness :
    (sync (oneNet ⟨false, false, true⟩) "default" none).map Prod.snd =
      .ok (syncSpecTrace "default" ⟨false, false, true⟩ none) :=
  sync_defined_trace (oneNet ⟨false, false, true⟩) "default"
    ⟨false, false, true⟩ none rfl
